import Mathlib

/-!
Verification of the Beacn Utility pipeweaver integration.

This file gives a shallow embedding, in Lean, of the pipeweaver
state-synchronisation client found under `src/integrations/pipeweaver/`
(`mod.rs`, `channel.rs`, `layout.rs`), and proves properties of the
embedded definitions.

Machine integers (`u8`, `u32`) are modelled as `Nat` with explicit
`% 256` / `% 2^32` at the points where the Rust code performs wrapping
(release-mode) arithmetic or truncating casts.  Byte streams (the disk
cache file) are `List Nat` whose members are below 256.  Fallible Rust
functions returning `anyhow::Result` are modelled with `Except String`.
-/

namespace BeacnPipeweaver

/-- Mix from `pipeweaver_shared`: the two monitoring buses.  `Mix::A` has
discriminant 0 and `Mix::B` discriminant 1 (used by `mix as u8` in
`save_cache` and by the `0 => Mix::A, 1 => Mix::B` match in `load_cache`). -/
inductive Mix
  | A
  | B
deriving DecidableEq, Repr, Fintype

/-- MuteTarget from `pipeweaver_shared`: the two mute-routing groups. -/
inductive MuteTarget
  | TargetA
  | TargetB
deriving DecidableEq, Repr, Fintype

/-- DeviceType values relevant to the pipeweaver handler
(`beacn_lib::manager::DeviceType`). -/
inductive DeviceType
  | BeacnMix
  | BeacnMixCreate
deriving DecidableEq, Repr

/-! ## Dial image disk cache (`layout.rs`, `DialHandler`)

`EnumMap<Mix, HashMap<u8, Vec<u8>>>` is modelled as a total function
`Mix → Nat → Option (List Nat)`: `none` means the volume key is absent
from the `HashMap`; an `EnumMap` always has a (possibly empty) map for
both mixes. -/

/-- The in-memory dial image table `EnumMap<Mix, HashMap<u8, Vec<u8>>>`. -/
def CacheMap : Type := Mix → Nat → Option (List Nat)

/-- `EnumMap::default()`: both per-mix hash maps empty. -/
def emptyCache : CacheMap := fun _ _ => none

/-- `map[mix].insert(volume, data)` on the modelled `CacheMap`. -/
def insertCache (m : CacheMap) (mix : Mix) (vol : Nat) (data : List Nat) : CacheMap :=
  fun mx v => if mx = mix ∧ v = vol then some data else m mx v

/-- `mix as u8` (the enum discriminant written by `save_cache`). -/
def mixByte : Mix → Nat
  | Mix.A => 0
  | Mix.B => 1

/-- The four bytes of `u32::to_le_bytes` for a length `n` (little endian). -/
def le32 (n : Nat) : List Nat :=
  [n % 256, n / 256 % 256, n / 65536 % 256, n / 16777216 % 256]

/-- One record of the cache file, as written by `DialHandler::save_cache`:
`[mix: u8][volume: u8][length: u32 LE][length bytes of encoded image]`. -/
def encodeRecord (e : Mix × Nat × List Nat) : List Nat :=
  mixByte e.1 :: e.2.1 :: (le32 e.2.2.length ++ e.2.2)

/-- `DialHandler::save_cache`: writes every `(mix, volume, data)` entry of
the map as one record.  The Rust code iterates the `EnumMap`/`HashMap`
pairs in an unspecified `HashMap` order, so the embedding takes the
enumeration of the map's entries as an explicit list and concatenates the
records in that list order. -/
def save_cache : List (Mix × Nat × List Nat) → List Nat
  | [] => []
  | e :: rest => encodeRecord e ++ save_cache rest

/-- Loop body of `DialHandler::load_cache` over the remaining bytes of the
file.  Mirrors the Rust control flow exactly:

* fewer than 6 bytes left (including zero): `read_exact` on the 6-byte
  header fails with `UnexpectedEof`, which the code treats as end of file
  and `break`s, returning the map built so far;
* header byte 0 selects the mix (`0 => Mix::A, 1 => Mix::B`, anything
  else is an error);
* header bytes 2..5 are the little-endian payload length; if fewer bytes
  remain, the `read_exact` on the payload errors (any error kind aborts
  the load there);
* otherwise the payload is inserted under `(mix, volume)` and the loop
  continues. -/
def load_cache_loop (bytes : List Nat) (map : CacheMap) : Except String CacheMap :=
  match bytes with
  | b0 :: b1 :: b2 :: b3 :: b4 :: b5 :: rest =>
    if b0 = 0 ∨ b0 = 1 then
      let mix := if b0 = 0 then Mix.A else Mix.B
      let len := b2 + 256 * b3 + 65536 * b4 + 16777216 * b5
      if rest.length < len then
        Except.error "Failed to read image data"
      else
        load_cache_loop (rest.drop len) (insertCache map mix b1 (rest.take len))
    else
      Except.error "Invalid mix identifier"
  | _ => Except.ok map
termination_by bytes.length
decreasing_by
  simp only [List.length_cons, List.length_drop]
  omega

/-- `DialHandler::load_cache`: parse a whole cache file starting from the
empty map. -/
def load_cache (bytes : List Nat) : Except String CacheMap :=
  load_cache_loop bytes emptyCache

/-- The generation path of `DialHandler::composite_dials`: for each mix and
each volume `0..=100`, `DrawingUtils::get_volume_image` is called and the
result inserted.  The image bytes themselves come from the rasteriser; the
embedding abstracts them as a generator function `gen`.  (`get_volume_image`
always succeeds for volumes `0..=100` because the precomputed
`DIAL_MIX_IMAGES` / `DIAL_TEXT_IMAGES` tables are populated for exactly
those keys.) -/
def generate_all (gen : Mix → Nat → List Nat) : CacheMap :=
  fun mix v => if v ≤ 100 then some (gen mix v) else none

/-- `DialHandler::composite_dials`: if a cache file exists and
`load_cache` succeeds, its result is returned as-is; otherwise all 2×101
entries are regenerated (the write-back of the regenerated cache has no
effect on the returned map). -/
def composite_dials (gen : Mix → Nat → List Nat) (cacheFile : Option (List Nat)) : CacheMap :=
  match cacheFile with
  | some bytes =>
    match load_cache bytes with
    | Except.ok map => map
    | Except.error _ => generate_all gen
  | none => generate_all gen

/-! ## Paging model (`mod.rs`, `get_page_count` / `get_channels_on_page`)

Source identifiers (`Ulid`) are modelled as `Nat`.  `self.active_page` is
a `u8`; its value enters only through the wrapping `u8` products and sums
below, so the embedding takes it as a `Nat` and applies `% 256` exactly
where the Rust `u8` arithmetic wraps (release-build semantics).
`Vec::with_capacity(4)` gives the channel vector capacity 4, so
`channels.capacity()` is 4 throughout. -/

/-- `PipeweaverHandler::get_page_count`, over the pinned and default
device-order groups.  `channel_count` is `others.len() as u8` (a
truncating cast) and the expression
`(channels_per_page + channel_count - 1) / channels_per_page` is
evaluated in `u8`, each operation wrapping mod 256
(`x - 1` wraps to `(x + 255) % 256`). -/
def get_page_count (pinned dflt : List Nat) : Nat :=
  if 4 ≤ pinned.length ∨ dflt.isEmpty then 1
  else
    let channels_per_page := 4 - pinned.length
    let channel_count := dflt.length % 256
    (((channels_per_page + channel_count) % 256 + 255) % 256) / channels_per_page

/-- `PipeweaverHandler::get_channels_on_page`.  Mirrors the source flow:
both groups empty returns the empty list; pinned entries fill up to the
capacity of 4 and, when they fill it, are returned alone; if the default
group is smaller than the remaining slots it is appended whole; otherwise
a window of the default group is taken, with `channel_start`
(`channels_per_page * active_page + channels_per_page`, `u8` wrapping
arithmetic) tested against the list length and the start clamped to
`others.len().saturating_sub(channels_per_page)` when it overflows.  The
final for-loop pushes from `others.iter().skip(start)` until the vector
reaches its capacity of 4. -/
def get_channels_on_page (pinned dflt : List Nat) (active_page : Nat) : List Nat :=
  if pinned.isEmpty ∧ dflt.isEmpty then []
  else
    let channels := pinned.take 4
    if channels.length = 4 then channels
    else
      let channels_per_page := 4 - pinned.length
      if dflt.length < channels_per_page then channels ++ dflt
      else
        let channel_start := (channels_per_page * active_page % 256 + channels_per_page) % 256
        let start :=
          if dflt.length < channel_start then dflt.length - channels_per_page
          else channels_per_page * active_page % 256
        channels ++ (dflt.drop start).take (4 - channels.length)

/-! ## Channel renderer (`channel.rs`) -/

/-- The per-target entry of `ChannelRenderer::mute_states`. -/
structure MuteState where
  is_active : Bool
  is_mute_to_all : Bool
deriving DecidableEq, Repr

/-- `ChannelRenderer`, restricted to its attribute state (the drawing
methods produce pixel buffers and are outside the embedding).  `colour`
is the `Rgba<u8>` quadruple (the renderer always stores alpha 255). -/
structure ChannelRenderer where
  title : String
  colour : Nat × Nat × Nat × Nat
  volumes : Mix → Nat
  mute_states : MuteTarget → MuteState

/-- The observations `update_from_device` / `from_source_device` make of a
daemon-side source device (`&impl SourceDevice`): the description name and
colour, the per-mix volume, and for each mute target whether
`mute_state.contains(&target)` and whether `mute_targets[target]` is
empty. -/
structure SourceDevice where
  name : String
  colour : Nat × Nat × Nat
  volume : Mix → Nat
  mute_state_contains : MuteTarget → Bool
  mute_targets_empty : MuteTarget → Bool

/-- `Rgba([desc.colour.red, desc.colour.green, desc.colour.blue, 255])`. -/
def snapshot_colour (d : SourceDevice) : Nat × Nat × Nat × Nat :=
  (d.colour.1, d.colour.2.1, d.colour.2.2, 255)

/-- `ChannelChangedProperty` from `channel.rs`. -/
inductive ChannelChangedProperty
  | Title
  | Colour
  | Volumes (mix : Mix)
  | MuteState (target : MuteTarget)
deriving DecidableEq, Repr

/-- `ChannelRenderer::from_source_device`. -/
def from_source_device (d : SourceDevice) : ChannelRenderer where
  title := d.name
  colour := snapshot_colour d
  volumes := d.volume
  mute_states := fun t =>
    { is_active := d.mute_state_contains t, is_mute_to_all := d.mute_targets_empty t }

/-- The in-progress state of `update_from_device`: the renderer being
mutated plus the `updates` vector accumulated so far. -/
def UpdState : Type := ChannelRenderer × List ChannelChangedProperty

/-- `if desc.name != self.title { self.title = ...; updates.push(Title) }`. -/
def upd_title (d : SourceDevice) (st : UpdState) : UpdState :=
  if d.name ≠ st.1.title then
    ({ st.1 with title := d.name }, st.2 ++ [ChannelChangedProperty.Title])
  else st

/-- `if self.colour != colour { self.colour = ...; updates.push(Colour) }`. -/
def upd_colour (d : SourceDevice) (st : UpdState) : UpdState :=
  if snapshot_colour d ≠ st.1.colour then
    ({ st.1 with colour := snapshot_colour d }, st.2 ++ [ChannelChangedProperty.Colour])
  else st

/-- One iteration of the `for mix in Mix::iter()` volume loop. -/
def upd_volume (m : Mix) (d : SourceDevice) (st : UpdState) : UpdState :=
  if d.volume m ≠ st.1.volumes m then
    ({ st.1 with volumes := fun mx => if mx = m then d.volume m else st.1.volumes mx },
      st.2 ++ [ChannelChangedProperty.Volumes m])
  else st

/-- One iteration of the first `for target in MuteTarget::iter()` loop
(the `is_active` comparison). -/
def upd_mute_active (t : MuteTarget) (d : SourceDevice) (st : UpdState) : UpdState :=
  if d.mute_state_contains t ≠ (st.1.mute_states t).is_active then
    ({ st.1 with mute_states := fun tg =>
        if tg = t then { st.1.mute_states tg with is_active := d.mute_state_contains t }
        else st.1.mute_states tg },
      st.2 ++ [ChannelChangedProperty.MuteState t])
  else st

/-- One iteration of the second `for target in MuteTarget::iter()` loop:
the `is_mute_to_all` comparison, whose push is guarded by
`!updates.contains(&MuteState(target))`. -/
def upd_mute_to_all (t : MuteTarget) (d : SourceDevice) (st : UpdState) : UpdState :=
  if d.mute_targets_empty t ≠ (st.1.mute_states t).is_mute_to_all then
    ({ st.1 with mute_states := fun tg =>
        if tg = t then { st.1.mute_states tg with is_mute_to_all := d.mute_targets_empty t }
        else st.1.mute_states tg },
      if ChannelChangedProperty.MuteState t ∈ st.2 then st.2
      else st.2 ++ [ChannelChangedProperty.MuteState t])
  else st

/-- `ChannelRenderer::update_from_device`: compares each attribute with
the snapshot, updating the attribute and appending a change tag on every
difference.  The steps run in the source order: title, colour, volumes
for `Mix::iter()` (A then B), `is_active` for `MuteTarget::iter()` (A
then B), then `is_mute_to_all` for each target.  Returns the updated
renderer together with the change list. -/
def update_from_device (r : ChannelRenderer) (d : SourceDevice) :
    ChannelRenderer × List ChannelChangedProperty :=
  upd_mute_to_all MuteTarget.TargetB d
    (upd_mute_to_all MuteTarget.TargetA d
      (upd_mute_active MuteTarget.TargetB d
        (upd_mute_active MuteTarget.TargetA d
          (upd_volume Mix.B d
            (upd_volume Mix.A d
              (upd_colour d
                (upd_title d (r, []))))))))

/-! ## Per-field redraw dispatch (`run_message_loop`, `mod.rs` lines 326-394)

When the visible set is unchanged, the message loop walks a renderer's
change list and, per tag, renders one sub-image and pushes it to the
device — except that `Volumes(mix)` is skipped (`continue`) when `mix`
differs from the active mix, and `MuteState(TargetB)` is skipped on a
Beacn Mix.  The pixel content is outside the embedding; which tags result
in a `SendImage` is captured below. -/

/-- Whether the `match part` arm for a change tag reaches the
`SendImage` at the bottom of the loop body (rather than `continue`). -/
def should_push_image (device_type : DeviceType) (active_mix : Mix) :
    ChannelChangedProperty → Bool
  | ChannelChangedProperty.Title => true
  | ChannelChangedProperty.Colour => true
  | ChannelChangedProperty.Volumes mix => decide (mix = active_mix)
  | ChannelChangedProperty.MuteState target =>
      !(decide (target = MuteTarget.TargetB) && decide (device_type = DeviceType.BeacnMix))

/-- The sub-list of change tags for which the loop pushes an image. -/
def images_pushed (device_type : DeviceType) (active_mix : Mix)
    (updates : List ChannelChangedProperty) : List ChannelChangedProperty :=
  updates.filter (should_push_image device_type active_mix)

/-! ## Interaction router (`handle_dial` and the mute arm of `handle_button`) -/

/-- The dial identifiers of `beacn_lib::controller::Dials`. -/
inductive Dials
  | Dial1
  | Dial2
  | Dial3
  | Dial4
deriving DecidableEq, Repr

/-- The `device_index` match at the top of `handle_dial`. -/
def dial_index : Dials → Nat
  | Dials.Dial1 => 0
  | Dials.Dial2 => 1
  | Dials.Dial3 => 2
  | Dials.Dial4 => 3

/-- The button identifiers of `beacn_lib::controller::Buttons`. -/
inductive Buttons
  | AudienceMix
  | PageLeft
  | PageRight
  | Dial1
  | Dial2
  | Dial3
  | Dial4
  | Audience1
  | Audience2
  | Audience3
  | Audience4
deriving DecidableEq, Repr

/-- The `(index, target)` binding of the mute-toggle arm of
`handle_button` (`Buttons::Dial1..4` map to `MuteTarget::TargetA`,
`Buttons::Audience1..4` to `MuteTarget::TargetB`); `none` for the
buttons handled by the other arms. -/
def mute_button_binding : Buttons → Option (Nat × MuteTarget)
  | Buttons.Dial1 => some (0, MuteTarget.TargetA)
  | Buttons.Dial2 => some (1, MuteTarget.TargetA)
  | Buttons.Dial3 => some (2, MuteTarget.TargetA)
  | Buttons.Dial4 => some (3, MuteTarget.TargetA)
  | Buttons.Audience1 => some (0, MuteTarget.TargetB)
  | Buttons.Audience2 => some (1, MuteTarget.TargetB)
  | Buttons.Audience3 => some (2, MuteTarget.TargetB)
  | Buttons.Audience4 => some (3, MuteTarget.TargetB)
  | _ => none

/-- The daemon commands emitted by the interaction router
(`pipeweaver_ipc::commands::APICommand`, the three variants used). -/
inductive APICommand
  | SetSourceVolume (device : Nat) (mix : Mix) (volume : Nat)
  | AddSourceMuteTarget (device : Nat) (target : MuteTarget)
  | DelSourceMuteTarget (device : Nat) (target : MuteTarget)
deriving DecidableEq, Repr

/-- The fields of `PipeweaverHandler` read or written by `handle_dial`
and the mute arm of `handle_button`.  The renderer map
(`HashMap<Ulid, ChannelRenderer>`) is modelled as a partial function. -/
structure HandlerState where
  device_type : DeviceType
  command_index : Nat
  active_page : Nat
  active_mix : Mix
  devices_shown : List Nat
  renderers : Nat → Option ChannelRenderer

/-- `PipeweaverHandler::handle_dial`.  `get_command_index` is called
(incrementing `command_index`) before the slot lookup; when the slot is
bound and its renderer present, the current volume for the active mix is
read, the signed delta added, the result clamped to `[0, 100]`
(`(volume + change as i16).clamp(0, 100) as u8`), and a
`SetSourceVolume` command emitted.  An unbound slot sends nothing; a
missing renderer is the error path (`ok_or(...)?`).  The emitted command
(the websocket `stream.send`) is returned rather than performed. -/
def handle_dial (st : HandlerState) (dial : Dials) (change : Int) :
    Except String (HandlerState × Option APICommand) :=
  let st1 := { st with command_index := st.command_index + 1 }
  match st.devices_shown[dial_index dial]? with
  | some device =>
    match st.renderers device with
    | some current =>
      let volume : Int := current.volumes st.active_mix
      let new_volume : Nat := (min (max (volume + change) 0) 100).toNat
      Except.ok (st1, some (APICommand.SetSourceVolume device st.active_mix new_volume))
    | none => Except.error "Failed to get Renderer"
  | none => Except.ok (st1, none)

/-- The mute-toggle arm of `PipeweaverHandler::handle_button`, after the
`(index, target)` extraction (`mute_button_binding`): when the slot is
bound and its renderer present, the current `is_active` flag chooses
between `DelSourceMuteTarget` and `AddSourceMuteTarget`,
`get_command_index` runs (inside the `if let`), and the command is sent;
an unbound slot does nothing at all. -/
def handle_mute_button (st : HandlerState) (index : Nat) (target : MuteTarget) :
    Except String (HandlerState × Option APICommand) :=
  match st.devices_shown[index]? with
  | some device =>
    match st.renderers device with
    | some current =>
      let message :=
        if (current.mute_states target).is_active then
          APICommand.DelSourceMuteTarget device target
        else
          APICommand.AddSourceMuteTarget device target
      Except.ok ({ st with command_index := st.command_index + 1 }, some message)
    | none => Except.error "Failed to get Renderer"
  | none => Except.ok (st, none)

/-! ## Raw/typed status mirror (`load_status` and the patch branch of
`run_message_loop`)

The retained raw document (`serde_json::Value`), the typed projection
(`DaemonStatus`), the patch payloads and the error type are library
types; the embedding is polymorphic over them, with `json_patch::patch`
and `serde_json::from_value` taken as function parameters.  The theorems
quantify over every such pair of functions, so they hold in particular
for the real ones. -/

/-- The `raw_status` / `status` pair held by `PipeweaverHandler`. -/
structure SyncState (J S : Type) where
  raw_status : J
  status : S

/-- The tail of `PipeweaverHandler::load_status`: store the fetched
document in `raw_status`, then decode the whole document into `status`
(`serde_json::from_value::<DaemonStatus>(raw)?`); a decode failure aborts
the connection (error). -/
def load_status {J S E : Type} (decode : J → Except E S) (data : J) :
    Except E (SyncState J S) :=
  match decode data with
  | Except.ok s => Except.ok { raw_status := data, status := s }
  | Except.error e => Except.error e

/-- The patch branch of `run_message_loop` (lines 296-300): apply the
patch to the retained raw document (`json_patch::patch(...)?`), then
re-decode the whole document into the typed projection
(`serde_json::from_value::<DaemonStatus>(self.raw_status.clone())?`).
Either failure aborts the loop. -/
def apply_patch_step {J S E P : Type} (patch : J → P → Except E J) (decode : J → Except E S)
    (st : SyncState J S) (p : P) : Except E (SyncState J S) :=
  match patch st.raw_status p with
  | Except.error e => Except.error e
  | Except.ok raw2 =>
    match decode raw2 with
    | Except.ok s => Except.ok { raw_status := raw2, status := s }
    | Except.error e => Except.error e

/-- Iterated patch application: the states this traverses are exactly the
states at which the message loop returns to its `select!` to await the
next frame. -/
def run_patches {J S E P : Type} (patch : J → P → Except E J) (decode : J → Except E S)
    (st : SyncState J S) : List P → Except E (SyncState J S)
  | [] => Except.ok st
  | p :: ps =>
    match apply_patch_step patch decode st p with
    | Except.ok st2 => run_patches patch decode st2 ps
    | Except.error e => Except.error e

/-! ## Connection loop (`run_handler` / `handle_connection`)

One iteration of the `while let Err(e) = self.handle_connection(url)`
loop, as a transition on the `has_connected` / `displaying_error` flags
emitting an event trace.  An attempt outcome records whether
`connect_async` succeeded before the eventual failure (a success runs
lines 205-206, setting `has_connected` and clearing `displaying_error`)
and whether the final error downcasts to an
`io::ErrorKind::ConnectionRefused` (the branch that suppresses the
warning log).  The `input_rx` disconnection check (which exits the loop)
is outside the modelled trace: the claims quantify over runs where the
interaction source stays alive. -/

/-- Outcome of one `handle_connection` call that returned `Err`. -/
structure ConnOutcome where
  connected : Bool
  refused : Bool
deriving DecidableEq, Repr, Fintype

/-- The `has_connected` / `displaying_error` flags of `PipeweaverHandler`. -/
structure ConnState where
  has_connected : Bool
  displaying_error : Bool
deriving DecidableEq, Repr, Fintype

/-- Observable side effects of one loop iteration. -/
inductive HandlerEvent
  | drew_splash
  | drew_failed_screen
  | drew_lost_screen
  | disabled_buttons
  | warned
  | slept5
deriving DecidableEq, Repr

/-- Whether an event is a draw of the failure status screen (either the
"Failed to connect to Pipeweaver" or the "Connection to Pipeweaver lost"
status line). -/
def is_status_draw : HandlerEvent → Bool
  | HandlerEvent.drew_failed_screen => true
  | HandlerEvent.drew_lost_screen => true
  | _ => false

/-- Effect of the `handle_connection` call itself on the flags: a
successful `connect_async` sets `has_connected := true` and
`displaying_error := false` before the later failure; a connect failure
leaves them untouched. -/
def connection_attempt_state (st : ConnState) (o : ConnOutcome) : ConnState :=
  if o.connected then { has_connected := true, displaying_error := false } else st

/-- One iteration of the retry loop in `run_handler` on a failed
`handle_connection`: if no error screen is showing, draw the status
screen matching `has_connected` (plus the splash for the "lost" case) and
black out the buttons; mark the error screen as showing; then either
sleep 5 seconds silently (connection refused) or log a warning and sleep
5 seconds. -/
def failure_iteration (st : ConnState) (o : ConnOutcome) : ConnState × List HandlerEvent :=
  let st := connection_attempt_state st o
  let evs :=
    if st.displaying_error then ([] : List HandlerEvent)
    else if st.has_connected then
      [HandlerEvent.drew_splash, HandlerEvent.drew_lost_screen, HandlerEvent.disabled_buttons]
    else
      [HandlerEvent.drew_failed_screen, HandlerEvent.disabled_buttons]
  let st := { st with displaying_error := true }
  let evs := evs ++ (if o.refused then [HandlerEvent.slept5]
                     else [HandlerEvent.warned, HandlerEvent.slept5])
  (st, evs)

/-- The retry loop over a run of consecutive failed attempts, collecting
the concatenated event trace. -/
def run_failures (st : ConnState) : List ConnOutcome → ConnState × List HandlerEvent
  | [] => (st, [])
  | o :: os =>
    let step := failure_iteration st o
    let rest := run_failures step.1 os
    (rest.1, step.2 ++ rest.2)

/-! ## Concrete instances used to exercise the definitions -/

/-- A renderer whose volume for both mixes is 98 (the spec scenario for
dial clamping). -/
def scenario_renderer : ChannelRenderer where
  title := "Music"
  colour := (20, 30, 40, 255)
  volumes := fun _ => 98
  mute_states := fun _ => { is_active := false, is_mute_to_all := true }

/-- A handler state with four visible sources; the source in slot 2 has
id 42 and a renderer at volume 98. -/
def scenario_state : HandlerState where
  device_type := DeviceType.BeacnMixCreate
  command_index := 7
  active_page := 0
  active_mix := Mix.A
  devices_shown := [10, 11, 42, 13]
  renderers := fun id => if id = 42 then some scenario_renderer else none

/-- An enumeration of a fully warm dial-image map: one entry for every
mix and every volume `0..=100`. -/
def warm_entries : List (Mix × Nat × List Nat) :=
  (List.range 101).map (fun v => (Mix.A, v, [v]))
    ++ (List.range 101).map (fun v => (Mix.B, v, [7, v]))

/-- A concrete decoder for exercising the status-mirror theorem. -/
def demo_decode : Nat → Except Unit Nat := fun j => Except.ok (j % 7)

/-- A concrete patch applier for exercising the status-mirror theorem. -/
def demo_patch : Nat → Nat → Except Unit Nat := fun j p => Except.ok (j + p)

/-- A snapshot identical to `scenario_renderer`'s attributes. -/
def demo_device : SourceDevice where
  name := "Music"
  colour := (20, 30, 40)
  volume := fun _ => 98
  mute_state_contains := fun _ => false
  mute_targets_empty := fun _ => true

/-- A snapshot differing from `scenario_renderer` only in the volume of
mix B. -/
def demo_device_vol : SourceDevice where
  name := "Music"
  colour := (20, 30, 40)
  volume := fun m => if m = Mix.B then 55 else 98
  mute_state_contains := fun _ => false
  mute_targets_empty := fun _ => true

/-- A snapshot flipping both mute sub-fields of target A relative to
`scenario_renderer`. -/
def demo_device_mute : SourceDevice where
  name := "Music"
  colour := (20, 30, 40)
  volume := fun _ => 98
  mute_state_contains := fun t => match t with | MuteTarget.TargetA => true | MuteTarget.TargetB => false
  mute_targets_empty := fun t => match t with | MuteTarget.TargetA => false | MuteTarget.TargetB => true

/-! # Theorems -/

/-- C1: the claim says loading the disk cache either fails (forcing full
regeneration) or yields an entry for every (mix, volume) pair, so that
the warm table always has 2×101 entries.  The code does not satisfy this:
`load_cache` treats `UnexpectedEof` while reading a record header —
including at offset 0 and even mid-header — as a normal end of file, so a
0-byte file loads successfully as an *empty* map, a truncated file ending
at a record boundary (or inside a header) loads successfully as a
*partial* map, and `composite_dials` returns such a map without
regenerating anything.  This evaluates the embedded code at those failing
inputs; contrast with `generate_all`, whose result does cover every pair. -/
theorem c1_partial_cache_load :
    load_cache [] = Except.ok emptyCache ∧
    composite_dials (fun _ _ => []) (some []) = emptyCache ∧
    emptyCache Mix.A 0 = none ∧
    load_cache [0, 1, 2] = Except.ok emptyCache ∧
    load_cache [0, 5, 0, 0, 0, 0] = Except.ok (insertCache emptyCache Mix.A 5 []) ∧
    insertCache emptyCache Mix.A 5 [] Mix.B 5 = none ∧
    generate_all (fun _ _ => []) Mix.A 0 = some [] := by
  have h0 : load_cache [] = Except.ok emptyCache := by
    simp [load_cache, load_cache_loop]
  refine ⟨h0, ?_, rfl, ?_, ?_, ?_, rfl⟩
  · rw [composite_dials, h0]
  · simp [load_cache, load_cache_loop]
  · simp [load_cache, load_cache_loop]
  · simp [insertCache, emptyCache]

/-- C2: after the initial status fetch and after every applied patch, the
typed status equals the decoding of the retained raw document.  The
theorem is polymorphic in the document/status/patch/error types and
quantifies over the `json_patch::patch` and `serde_json::from_value`
functions, so it holds for the library's actual implementations: the loop
discipline alone guarantees the mirror invariant at every point where the
message loop returns to await the next frame. -/
theorem status_mirror_invariant :
    (∀ (J S E : Type) (decode : J → Except E S) (data : J) (st : SyncState J S),
      load_status decode data = Except.ok st →
        decode st.raw_status = Except.ok st.status) ∧
    (∀ (J S E P : Type) (patch : J → P → Except E J) (decode : J → Except E S)
        (st : SyncState J S) (ps : List P) (st2 : SyncState J S),
      decode st.raw_status = Except.ok st.status →
      run_patches patch decode st ps = Except.ok st2 →
        decode st2.raw_status = Except.ok st2.status) := by
  have step_inv : ∀ (J S E P : Type) (patch : J → P → Except E J) (decode : J → Except E S)
      (st : SyncState J S) (p : P) (st2 : SyncState J S),
      apply_patch_step patch decode st p = Except.ok st2 →
        decode st2.raw_status = Except.ok st2.status := by
    intro J S E P patch decode st p st2 h
    cases hp : patch st.raw_status p with
    | error e => simp [apply_patch_step, hp] at h
    | ok raw2 =>
      cases hd : decode raw2 with
      | error e => simp [apply_patch_step, hp, hd] at h
      | ok s =>
        simp [apply_patch_step, hp, hd] at h
        subst h
        simpa using hd
  constructor
  · intro J S E decode data st h
    cases hd : decode data with
    | ok s =>
      simp [load_status, hd] at h
      subst h
      simpa using hd
    | error e => simp [load_status, hd] at h
  · intro J S E P patch decode st ps st2 hinv hrun
    induction ps generalizing st with
    | nil =>
      simp [run_patches] at hrun
      subst hrun
      exact hinv
    | cons p ps ih =>
      rw [run_patches] at hrun
      cases hstep : apply_patch_step patch decode st p with
      | ok stm =>
        rw [hstep] at hrun
        exact ih stm (step_inv J S E P patch decode st p stm hstep) hrun
      | error e => rw [hstep] at hrun; cases hrun

/-- C2 witness: the invariant instantiated with a concrete decoder and
patch applier on a concrete three-patch run. -/
theorem status_mirror_invariant_witness :
    demo_decode (SyncState.raw_status (⟨6, 6⟩ : SyncState Nat Nat)) =
      Except.ok (SyncState.status (⟨6, 6⟩ : SyncState Nat Nat)) :=
  status_mirror_invariant.2 Nat Nat Unit Nat demo_patch demo_decode
    ⟨0, 0⟩ [1, 2, 3] ⟨6, 6⟩ (by rfl) (by rfl)

/-- Reading back the little-endian length field recovers the length when
it fits in a `u32`. -/
lemma le32_readback (n : Nat) (h : n < 2 ^ 32) :
    n % 256 + 256 * (n / 256 % 256) + 65536 * (n / 65536 % 256)
      + 16777216 * (n / 16777216 % 256) = n := by
  omega

/-- Consuming one well-formed record from the front of the byte stream
inserts its payload and continues with the rest. -/
lemma load_cache_loop_record (mix : Mix) (vol : Nat) (data rest : List Nat) (map : CacheMap)
    (hlen : data.length < 2 ^ 32) :
    load_cache_loop (encodeRecord (mix, vol, data) ++ rest) map =
      load_cache_loop rest (insertCache map mix vol data) := by
  have hguard : ¬((data ++ rest).length < data.length) := by simp
  cases mix
  case A =>
    have hb : encodeRecord (Mix.A, vol, data) ++ rest =
        0 :: vol :: (data.length % 256) :: (data.length / 256 % 256) ::
          (data.length / 65536 % 256) :: (data.length / 16777216 % 256) :: (data ++ rest) := by
      simp [encodeRecord, le32, mixByte]
    rw [hb, load_cache_loop, le32_readback data.length hlen]
    simp [hguard, List.take_left, List.drop_left]
  case B =>
    have hb : encodeRecord (Mix.B, vol, data) ++ rest =
        1 :: vol :: (data.length % 256) :: (data.length / 256 % 256) ::
          (data.length / 65536 % 256) :: (data.length / 16777216 % 256) :: (data ++ rest) := by
      simp [encodeRecord, le32, mixByte]
    rw [hb, load_cache_loop, le32_readback data.length hlen]
    simp [hguard, List.take_left, List.drop_left]

/-- Loading the serialisation of an entry list folds the entries into the
starting map in order. -/
lemma load_cache_loop_save (entries : List (Mix × Nat × List Nat)) (map : CacheMap)
    (hwf : ∀ e ∈ entries, e.2.2.length < 2 ^ 32) :
    load_cache_loop (save_cache entries) map =
      Except.ok (entries.foldl (fun m e => insertCache m e.1 e.2.1 e.2.2) map) := by
  induction entries generalizing map with
  | nil => simp [save_cache, load_cache_loop]
  | cons e rest ih =>
    obtain ⟨mix, vol, data⟩ := e
    rw [save_cache, load_cache_loop_record mix vol data (save_cache rest) map
      (hwf (mix, vol, data) (by simp))]
    rw [ih _ (fun e2 he2 => hwf e2 (List.mem_cons_of_mem _ he2))]
    simp

/-- A fold of inserts leaves a key untouched when no entry carries it. -/
lemma foldl_insert_other (entries : List (Mix × Nat × List Nat)) (map : CacheMap)
    (mix : Mix) (vol : Nat)
    (h : ∀ e ∈ entries, ¬(e.1 = mix ∧ e.2.1 = vol)) :
    (entries.foldl (fun m e => insertCache m e.1 e.2.1 e.2.2) map) mix vol = map mix vol := by
  induction entries generalizing map with
  | nil => simp
  | cons e rest ih =>
    simp only [List.foldl_cons]
    rw [ih _ (fun e2 he2 => h e2 (by simp [he2]))]
    have he : ¬(mix = e.1 ∧ vol = e.2.1) := by
      intro hc
      exact h e (by simp) ⟨hc.1.symm, hc.2.symm⟩
    simp [insertCache, he]

/-- With pairwise-distinct keys, the fold of inserts maps every entry's
key to its payload. -/
lemma foldl_insert_lookup (entries : List (Mix × Nat × List Nat)) (map : CacheMap)
    (hkeys : entries.Pairwise fun a b => ¬(a.1 = b.1 ∧ a.2.1 = b.2.1)) :
    ∀ e ∈ entries,
      (entries.foldl (fun m e => insertCache m e.1 e.2.1 e.2.2) map) e.1 e.2.1 = some e.2.2 := by
  induction entries generalizing map with
  | nil => simp
  | cons e rest ih =>
    intro e2 he2
    rcases List.mem_cons.1 he2 with he2 | he2
    · subst he2
      simp only [List.foldl_cons]
      rw [foldl_insert_other rest _ e2.1 e2.2.1
        (fun b hb hc => List.rel_of_pairwise_cons hkeys hb ⟨hc.1.symm, hc.2.symm⟩)]
      simp [insertCache]
    · exact ih _ (List.Pairwise.of_cons hkeys) e2 he2

/-- C8: saving a warm dial-image map and loading the written file back
yields byte-identical encoded images at every (mix, volume) key.
`entries` enumerates the map's `(mix, volume, bytes)` triples in the
(arbitrary) iteration order `save_cache` sees; well-formedness mirrors the
Rust types (`volume: u8`, payload of `u8` with a `u32` length), the keys
of a map enumeration are distinct, and warmth supplies an entry for every
mix and volume `0..=100`. -/
theorem dial_cache_round_trip (entries : List (Mix × Nat × List Nat))
    (hkeys : entries.Pairwise fun a b => ¬(a.1 = b.1 ∧ a.2.1 = b.2.1))
    (hwf : ∀ e ∈ entries, e.2.1 < 256 ∧ e.2.2.length < 2 ^ 32 ∧ ∀ b ∈ e.2.2, b < 256)
    (hwarm : ∀ (mix : Mix) (vol : Nat), vol ≤ 100 → ∃ d, (mix, vol, d) ∈ entries) :
    ∃ loaded, load_cache (save_cache entries) = Except.ok loaded ∧
      ∀ e ∈ entries, loaded e.1 e.2.1 = some e.2.2 := by
  refine ⟨entries.foldl (fun m e => insertCache m e.1 e.2.1 e.2.2) emptyCache, ?_, ?_⟩
  · rw [load_cache]
    exact load_cache_loop_save entries emptyCache (fun e he => (hwf e he).2.1)
  · exact foldl_insert_lookup entries emptyCache hkeys

set_option maxRecDepth 100000 in
/-- C8 witness: the round trip applied to a concrete fully warm map. -/
theorem dial_cache_round_trip_witness :
    ∃ loaded, load_cache (save_cache warm_entries) = Except.ok loaded ∧
      ∀ e ∈ warm_entries, loaded e.1 e.2.1 = some e.2.2 :=
  dial_cache_round_trip warm_entries (by decide) (by decide)
    (by
      intro mix vol h
      cases mix
      case A =>
        refine ⟨[vol], ?_⟩
        simp only [warm_entries, List.mem_append, List.mem_map, List.mem_range]
        exact Or.inl ⟨vol, by omega, rfl⟩
      case B =>
        refine ⟨[7, vol], ?_⟩
        simp only [warm_entries, List.mem_append, List.mem_map, List.mem_range]
        exact Or.inr ⟨vol, by omega, rfl⟩)

/-- When the pinned group leaves room and the default group fills it, the
visible page is `pinned` followed by a window of the default group whose
start is the overflow-clamped offset, provided the `u8` arithmetic does
not wrap. -/
lemma channels_window_core (pinned dflt : List Nat) (page : Nat)
    (hp : pinned.length < 4)
    (hdne : dflt.isEmpty = false)
    (hcpp : 4 - pinned.length ≤ dflt.length)
    (hmul : (4 - pinned.length) * page + (4 - pinned.length) ≤ 255) :
    get_channels_on_page pinned dflt page =
      pinned ++ (dflt.drop (if dflt.length < (4 - pinned.length) * page + (4 - pinned.length)
        then dflt.length - (4 - pinned.length)
        else (4 - pinned.length) * page)).take (4 - pinned.length) := by
  have hmod1 : (4 - pinned.length) * page % 256 = (4 - pinned.length) * page :=
    Nat.mod_eq_of_lt (by omega)
  have hmod3 : ((4 - pinned.length) * page + (4 - pinned.length)) % 256 =
      (4 - pinned.length) * page + (4 - pinned.length) :=
    Nat.mod_eq_of_lt (by omega)
  have htk : pinned.take 4 = pinned := List.take_of_length_le (by omega)
  simp only [get_channels_on_page, htk, hmod1, hmod3]
  rw [if_neg (by simp [hdne]), if_neg (by omega : ¬pinned.length = 4),
    if_neg (by omega : ¬dflt.length < 4 - pinned.length)]

/-- For an in-range page, the visible page is `pinned` plus a full-size
window of the default group lying entirely inside it. -/
lemma channels_window (pinned dflt : List Nat) (page : Nat)
    (hlen : dflt.length ≤ 252) (hp : pinned.length < 4)
    (hcpp : 4 - pinned.length ≤ dflt.length)
    (hpage : page < get_page_count pinned dflt) :
    ∃ s, s + (4 - pinned.length) ≤ dflt.length ∧
      get_channels_on_page pinned dflt page =
        pinned ++ (dflt.drop s).take (4 - pinned.length) ∧
      ((dflt.drop s).take (4 - pinned.length)).length = 4 - pinned.length := by
  have hd0 : 1 ≤ dflt.length := by omega
  have hdne : dflt.isEmpty = false := by
    rw [List.isEmpty_eq_false]
    intro h
    rw [h] at hd0
    simp at hd0
  simp only [get_page_count, hdne] at hpage
  rw [if_neg (by simp; omega)] at hpage
  have hmul : (4 - pinned.length) * page + (4 - pinned.length) ≤ 255 := by
    generalize hpl : pinned.length = p at hp hpage ⊢
    interval_cases p <;> omega
  have hs : (if dflt.length < (4 - pinned.length) * page + (4 - pinned.length)
      then dflt.length - (4 - pinned.length)
      else (4 - pinned.length) * page) + (4 - pinned.length) ≤ dflt.length := by
    split_ifs with h <;> omega
  refine ⟨_, hs, channels_window_core pinned dflt page hp hdne hcpp hmul, ?_⟩
  simp only [List.length_take, List.length_drop]
  omega

set_option maxRecDepth 10000 in
/-- C3 counterexample: the claim asserts the page count is at least 1 for
*every* device order, but `get_page_count` computes
`(channels_per_page + channel_count - 1) / channels_per_page` in `u8`:
with 0 pinned and 253 default sources the sum `4 + 253` wraps to 1,
`1 - 1 = 0`, and the page count is 0. -/
theorem page_count_zero_at_253 : ¬1 ≤ get_page_count [] (List.range 253) := by
  decide

/-- C3 (amended): for every device order with at most 252 default-group
sources, the page count is at least 1; for every in-range page, when the
default group fills the remaining slots the visible page is a full-size
window of the default group that never runs past its end (the final page
is clamped backwards); for every in-range page on a non-empty order the
visible page is non-empty; and in the concrete scenario of 0 pinned and 5
default sources, the page count is 2, page 0 shows default positions
0-3, and page 1 shows positions 1-4 rather than position 4 alone. -/
theorem pagination_bounds :
    (∀ pinned dflt : List Nat, dflt.length ≤ 252 → 1 ≤ get_page_count pinned dflt) ∧
    (∀ (pinned dflt : List Nat) (page : Nat), dflt.length ≤ 252 →
      pinned.length < 4 → 4 - pinned.length ≤ dflt.length →
      page < get_page_count pinned dflt →
      ∃ s, s + (4 - pinned.length) ≤ dflt.length ∧
        get_channels_on_page pinned dflt page =
          pinned ++ (dflt.drop s).take (4 - pinned.length) ∧
        ((dflt.drop s).take (4 - pinned.length)).length = 4 - pinned.length) ∧
    (∀ (pinned dflt : List Nat) (page : Nat), dflt.length ≤ 252 →
      ¬(pinned = [] ∧ dflt = []) → page < get_page_count pinned dflt →
      get_channels_on_page pinned dflt page ≠ []) ∧
    (get_page_count [] [1, 2, 3, 4, 5] = 2 ∧
      get_channels_on_page [] [1, 2, 3, 4, 5] 0 = [1, 2, 3, 4] ∧
      get_channels_on_page [] [1, 2, 3, 4, 5] 1 = [2, 3, 4, 5]) := by
  refine ⟨?_, fun pinned dflt page h1 h2 h3 h4 => channels_window pinned dflt page h1 h2 h3 h4,
    ?_, by decide, by decide, by decide⟩
  · intro pinned dflt hlen
    simp only [get_page_count]
    split_ifs with h
    · exact le_refl 1
    · push_neg at h
      obtain ⟨hp4, hdn⟩ := h
      have hd0 : 1 ≤ dflt.length := by
        cases dflt with
        | nil => simp at hdn
        | cons a l => simp
      generalize hpl : pinned.length = p at hp4 ⊢
      interval_cases p <;> omega
  · intro pinned dflt page hlen hne hpage
    by_cases hpn : pinned = []
    · subst hpn
      have hdn : dflt ≠ [] := fun h => hne ⟨rfl, h⟩
      have hd0 : 1 ≤ dflt.length := by
        cases dflt with
        | nil => exact absurd rfl hdn
        | cons a l => simp
      by_cases hsmall : dflt.length < 4
      · simp only [get_channels_on_page]
        rw [if_neg (by simp [hdn]), if_neg (by simp), if_pos (by simpa using hsmall)]
        simpa using hdn
      · obtain ⟨s, hs, heq, hlen4⟩ := channels_window [] dflt page hlen (by simp)
          (by simpa using (by omega : 4 ≤ dflt.length)) hpage
        rw [heq]
        intro hcon
        rw [List.nil_append] at hcon
        rw [hcon] at hlen4
        simp at hlen4
    · intro hcon
      have hp0 : 1 ≤ pinned.length := by
        cases pinned with
        | nil => exact absurd rfl hpn
        | cons a l => simp
      simp only [get_channels_on_page] at hcon
      rw [if_neg (by simp [hpn])] at hcon
      split_ifs at hcon with h2 h3 h4
      · rw [hcon] at h2
        simp at h2
      all_goals {
        have hl := (List.append_eq_nil.1 hcon).1
        rw [List.take_eq_nil_iff] at hl
        rcases hl with hl | hl
        · exact absurd hl (by omega)
        · exact hpn hl
      }

/-- C3 witness: the amended bounds applied at concrete orders. -/
theorem pagination_bounds_witness :
    1 ≤ get_page_count [9] [1, 2] ∧
      get_channels_on_page [] [1, 2, 3, 4, 5] 1 ≠ [] :=
  ⟨pagination_bounds.1 [9] [1, 2] (by decide),
    pagination_bounds.2.2.1 [] [1, 2, 3, 4, 5] 1 (by decide) (by decide) (by decide)⟩

/-- C9: for any pinned/default partition with disjoint, duplicate-free
groups and any page number, the visible-channel list has length at most
4, has no duplicates, and consists of (a prefix of) the pinned ids
followed by a sublist of the default ids, so every pinned id precedes
every default id. -/
theorem page_channels_shape (pinned dflt : List Nat) (page : Nat)
    (hnd : (pinned ++ dflt).Nodup) :
    (get_channels_on_page pinned dflt page).length ≤ 4 ∧
    (get_channels_on_page pinned dflt page).Nodup ∧
    ∃ dpart : List Nat, dpart.Sublist dflt ∧
      get_channels_on_page pinned dflt page = pinned.take 4 ++ dpart := by
  rw [List.nodup_append] at hnd
  obtain ⟨hpnd, hdnd, hdisj⟩ := hnd
  have htknd : (pinned.take 4).Nodup := List.Nodup.sublist (List.take_sublist 4 pinned) hpnd
  have hwin : ∀ s k : Nat, ((dflt.drop s).take k).Sublist dflt :=
    fun s k => ((List.take_sublist k (dflt.drop s)).trans (List.drop_sublist s dflt))
  have hshape : ∀ dpart : List Nat, dpart.Sublist dflt →
      (pinned.take 4 ++ dpart).Nodup := by
    intro dpart hsub
    rw [List.nodup_append]
    exact ⟨htknd, List.Nodup.sublist hsub hdnd,
      fun a ha hb => hdisj (List.Sublist.subset (List.take_sublist 4 pinned) ha)
        (List.Sublist.subset hsub hb)⟩
  simp only [get_channels_on_page]
  split_ifs with h1 h2 h3 h4
  · exact ⟨by simp, by simp, [], List.nil_sublist dflt,
      by simp [List.isEmpty_iff.1 h1.1]⟩
  · refine ⟨by simp [h2], by simpa using htknd, [], List.nil_sublist dflt, by simp⟩
  · have hple : pinned.length ≤ 4 := by
      have := List.length_take 4 pinned
      omega
    have hp4 : pinned.take 4 = pinned := List.take_of_length_le hple
    refine ⟨?_, ?_, dflt, List.Sublist.refl dflt, by rw [hp4]⟩
    · rw [hp4] at h2 ⊢
      simp only [List.length_append]
      omega
    · rw [hp4, List.nodup_append]
      exact ⟨hpnd, hdnd, hdisj⟩
  all_goals {
    refine ⟨?_, hshape _ (hwin _ _), _, hwin _ _, rfl⟩
    simp only [List.length_append, List.length_take, List.length_drop]
    omega
  }

/-- C9 witness: the shape invariant applied at a concrete partition and
an out-of-range page number. -/
theorem page_channels_shape_witness :
    (get_channels_on_page [6, 7] [8, 9, 10] 5).length ≤ 4 ∧
    (get_channels_on_page [6, 7] [8, 9, 10] 5).Nodup ∧
    ∃ dpart : List Nat, dpart.Sublist [8, 9, 10] ∧
      get_channels_on_page [6, 7] [8, 9, 10] 5 = [6, 7].take 4 ++ dpart :=
  page_channels_shape [6, 7] [8, 9, 10] 5 (by decide)

/-- Appending a non-`MuteState t` tag does not change the `MuteState t`
count. -/
lemma count_mute_append_other (l : List ChannelChangedProperty) (t : MuteTarget)
    (x : ChannelChangedProperty) (hx : ChannelChangedProperty.MuteState t ≠ x) :
    (l ++ [x]).count (ChannelChangedProperty.MuteState t) =
      l.count (ChannelChangedProperty.MuteState t) := by
  rw [List.count_append]
  have h0 : ([x].count (ChannelChangedProperty.MuteState t)) = 0 :=
    List.count_eq_zero.2 (by simp [hx])
  omega

lemma count_upd_title (d : SourceDevice) (st : UpdState) (t : MuteTarget) :
    ((upd_title d st).2).count (ChannelChangedProperty.MuteState t) =
      st.2.count (ChannelChangedProperty.MuteState t) := by
  simp only [upd_title]
  split_ifs
  · exact count_mute_append_other _ _ _ (by simp)
  · rfl

lemma count_upd_colour (d : SourceDevice) (st : UpdState) (t : MuteTarget) :
    ((upd_colour d st).2).count (ChannelChangedProperty.MuteState t) =
      st.2.count (ChannelChangedProperty.MuteState t) := by
  simp only [upd_colour]
  split_ifs
  · exact count_mute_append_other _ _ _ (by simp)
  · rfl

lemma count_upd_volume (m : Mix) (d : SourceDevice) (st : UpdState) (t : MuteTarget) :
    ((upd_volume m d st).2).count (ChannelChangedProperty.MuteState t) =
      st.2.count (ChannelChangedProperty.MuteState t) := by
  simp only [upd_volume]
  split_ifs
  · exact count_mute_append_other _ _ _ (by simp)
  · rfl

lemma count_upd_mute_active_ne (t2 t : MuteTarget) (d : SourceDevice) (st : UpdState)
    (hne : t2 ≠ t) :
    ((upd_mute_active t2 d st).2).count (ChannelChangedProperty.MuteState t) =
      st.2.count (ChannelChangedProperty.MuteState t) := by
  simp only [upd_mute_active]
  split_ifs
  · exact count_mute_append_other _ _ _ (by simp [Ne.symm hne])
  · rfl

lemma count_upd_to_all_ne (t2 t : MuteTarget) (d : SourceDevice) (st : UpdState)
    (hne : t2 ≠ t) :
    ((upd_mute_to_all t2 d st).2).count (ChannelChangedProperty.MuteState t) =
      st.2.count (ChannelChangedProperty.MuteState t) := by
  simp only [upd_mute_to_all]
  split_ifs
  · rfl
  · exact count_mute_append_other _ _ _ (by simp [Ne.symm hne])
  · rfl

lemma upd_mute_active_fire (t : MuteTarget) (d : SourceDevice) (st : UpdState)
    (h : d.mute_state_contains t ≠ (st.1.mute_states t).is_active) :
    (upd_mute_active t d st).2 = st.2 ++ [ChannelChangedProperty.MuteState t] := by
  simp only [upd_mute_active]
  rw [if_pos h]

lemma upd_to_all_mem_list (t : MuteTarget) (d : SourceDevice) (st : UpdState)
    (h : ChannelChangedProperty.MuteState t ∈ st.2) :
    (upd_mute_to_all t d st).2 = st.2 := by
  simp only [upd_mute_to_all, h]
  split_ifs <;> rfl

lemma mem_upd_mute_active (t2 t : MuteTarget) (d : SourceDevice) (st : UpdState)
    (h : ChannelChangedProperty.MuteState t ∈ st.2) :
    ChannelChangedProperty.MuteState t ∈ (upd_mute_active t2 d st).2 := by
  simp only [upd_mute_active]
  split_ifs
  · simp [h]
  · exact h

lemma mem_upd_to_all (t2 t : MuteTarget) (d : SourceDevice) (st : UpdState)
    (h : ChannelChangedProperty.MuteState t ∈ st.2) :
    ChannelChangedProperty.MuteState t ∈ (upd_mute_to_all t2 d st).2 := by
  simp only [upd_mute_to_all]
  split_ifs
  · exact h
  · simp [h]
  · exact h

lemma upd_title_mute (d : SourceDevice) (st : UpdState) :
    (upd_title d st).1.mute_states = st.1.mute_states := by
  simp only [upd_title]
  split_ifs <;> rfl

lemma upd_colour_mute (d : SourceDevice) (st : UpdState) :
    (upd_colour d st).1.mute_states = st.1.mute_states := by
  simp only [upd_colour]
  split_ifs <;> rfl

lemma upd_volume_mute (m : Mix) (d : SourceDevice) (st : UpdState) :
    (upd_volume m d st).1.mute_states = st.1.mute_states := by
  simp only [upd_volume]
  split_ifs <;> rfl

lemma upd_mute_active_other (t2 t : MuteTarget) (d : SourceDevice) (st : UpdState)
    (hne : t ≠ t2) :
    (upd_mute_active t2 d st).1.mute_states t = st.1.mute_states t := by
  simp only [upd_mute_active]
  split_ifs
  · simp [hne]
  · rfl

/-- A snapshot identical to the current attributes produces no updates
and leaves the renderer unchanged. -/
lemma update_from_device_unchanged (r : ChannelRenderer) (d : SourceDevice)
    (hname : d.name = r.title) (hcol : snapshot_colour d = r.colour)
    (hvol : ∀ m, d.volume m = r.volumes m)
    (hact : ∀ t, d.mute_state_contains t = (r.mute_states t).is_active)
    (hall : ∀ t, d.mute_targets_empty t = (r.mute_states t).is_mute_to_all) :
    update_from_device r d = (r, []) := by
  simp [update_from_device, upd_title, upd_colour, upd_volume, upd_mute_active,
    upd_mute_to_all, hname, hcol, hvol, hact, hall]

/-- A snapshot differing from the current attributes only in the volume
of mix `m` updates exactly that volume and returns exactly
`[Volumes m]`. -/
lemma update_from_device_volume_only (r : ChannelRenderer) (d : SourceDevice) (m : Mix)
    (hname : d.name = r.title) (hcol : snapshot_colour d = r.colour)
    (hvne : d.volume m ≠ r.volumes m)
    (hvoth : ∀ m2, m2 ≠ m → d.volume m2 = r.volumes m2)
    (hact : ∀ t, d.mute_state_contains t = (r.mute_states t).is_active)
    (hall : ∀ t, d.mute_targets_empty t = (r.mute_states t).is_mute_to_all) :
    update_from_device r d =
      ({ r with volumes := fun mx => if mx = m then d.volume m else r.volumes mx },
        [ChannelChangedProperty.Volumes m]) := by
  cases m
  case A =>
    have hvB : d.volume Mix.B = r.volumes Mix.B := hvoth Mix.B (by simp)
    simp [update_from_device, upd_title, upd_colour, upd_volume, upd_mute_active,
      upd_mute_to_all, hname, hcol, hvne, hvB, hact, hall]
  case B =>
    have hvA : d.volume Mix.A = r.volumes Mix.A := hvoth Mix.A (by simp)
    simp [update_from_device, upd_title, upd_colour, upd_volume, upd_mute_active,
      upd_mute_to_all, hname, hcol, hvne, hvA, hact, hall]

/-- When both mute sub-fields of a target changed, `MuteState(target)`
appears exactly once in the update list. -/
lemma update_from_device_mute_once (r : ChannelRenderer) (d : SourceDevice) (t : MuteTarget)
    (hact : d.mute_state_contains t ≠ (r.mute_states t).is_active) :
    ((update_from_device r d).2).count (ChannelChangedProperty.MuteState t) = 1 := by
  have hms4 : (upd_volume Mix.B d (upd_volume Mix.A d (upd_colour d
      (upd_title d (r, []))))).1.mute_states = r.mute_states := by
    rw [upd_volume_mute, upd_volume_mute, upd_colour_mute, upd_title_mute]
  have hc4 : ((upd_volume Mix.B d (upd_volume Mix.A d (upd_colour d
      (upd_title d (r, []))))).2).count (ChannelChangedProperty.MuteState t) = 0 := by
    rw [count_upd_volume, count_upd_volume, count_upd_colour, count_upd_title]
    rfl
  rw [update_from_device]
  cases t
  case TargetA =>
    have h5 := upd_mute_active_fire MuteTarget.TargetA d _ (by rw [hms4]; exact hact)
    have hc5 : ((upd_mute_active MuteTarget.TargetA d (upd_volume Mix.B d (upd_volume Mix.A d
        (upd_colour d (upd_title d (r, [])))))).2).count
          (ChannelChangedProperty.MuteState MuteTarget.TargetA) = 1 := by
      rw [h5, List.count_append, hc4]
      simp
    have hm5 : ChannelChangedProperty.MuteState MuteTarget.TargetA ∈
        (upd_mute_active MuteTarget.TargetA d (upd_volume Mix.B d (upd_volume Mix.A d
          (upd_colour d (upd_title d (r, [])))))).2 := by
      rw [h5]
      simp
    have hm6 := mem_upd_mute_active MuteTarget.TargetB MuteTarget.TargetA d _ hm5
    rw [count_upd_to_all_ne MuteTarget.TargetB MuteTarget.TargetA d _ (by simp),
      upd_to_all_mem_list MuteTarget.TargetA d _ hm6,
      count_upd_mute_active_ne MuteTarget.TargetB MuteTarget.TargetA d _ (by simp)]
    exact hc5
  case TargetB =>
    have hms5 : (upd_mute_active MuteTarget.TargetA d (upd_volume Mix.B d (upd_volume Mix.A d
        (upd_colour d (upd_title d (r, [])))))).1.mute_states MuteTarget.TargetB =
          r.mute_states MuteTarget.TargetB := by
      rw [upd_mute_active_other MuteTarget.TargetA MuteTarget.TargetB d _ (by simp)]
      rw [show ((upd_volume Mix.B d (upd_volume Mix.A d (upd_colour d
        (upd_title d (r, []))))).1.mute_states) = r.mute_states from hms4]
    have h6 := upd_mute_active_fire MuteTarget.TargetB d
      (upd_mute_active MuteTarget.TargetA d (upd_volume Mix.B d (upd_volume Mix.A d
        (upd_colour d (upd_title d (r, []))))))
      (by rw [hms5]; exact hact)
    have hc6 : ((upd_mute_active MuteTarget.TargetB d (upd_mute_active MuteTarget.TargetA d
        (upd_volume Mix.B d (upd_volume Mix.A d (upd_colour d
          (upd_title d (r, []))))))).2).count
            (ChannelChangedProperty.MuteState MuteTarget.TargetB) = 1 := by
      rw [h6, List.count_append,
        count_upd_mute_active_ne MuteTarget.TargetA MuteTarget.TargetB d _ (by simp), hc4]
      simp
    have hm6 : ChannelChangedProperty.MuteState MuteTarget.TargetB ∈
        (upd_mute_active MuteTarget.TargetB d (upd_mute_active MuteTarget.TargetA d
          (upd_volume Mix.B d (upd_volume Mix.A d (upd_colour d
            (upd_title d (r, []))))))).2 := by
      rw [h6]
      simp
    have hm7 := mem_upd_to_all MuteTarget.TargetA MuteTarget.TargetB d _ hm6
    rw [upd_to_all_mem_list MuteTarget.TargetB d _ hm7,
      count_upd_to_all_ne MuteTarget.TargetA MuteTarget.TargetB d _ (by simp)]
    exact hc6

/-- C4: `update_from` is a faithful minimal diff: an identical snapshot
yields an empty change list; a snapshot differing only in one mix's
volume yields exactly `[Volumes(that_mix)]`; and when a target's active
flag and routes-to-all flag both change in one snapshot,
`MuteState(target)` appears in the returned list exactly once. -/
theorem update_from_minimal_diff :
    (∀ (r : ChannelRenderer) (d : SourceDevice),
      d.name = r.title → snapshot_colour d = r.colour →
      (∀ m, d.volume m = r.volumes m) →
      (∀ t, d.mute_state_contains t = (r.mute_states t).is_active) →
      (∀ t, d.mute_targets_empty t = (r.mute_states t).is_mute_to_all) →
      (update_from_device r d).2 = []) ∧
    (∀ (r : ChannelRenderer) (d : SourceDevice) (m : Mix),
      d.name = r.title → snapshot_colour d = r.colour →
      d.volume m ≠ r.volumes m →
      (∀ m2, m2 ≠ m → d.volume m2 = r.volumes m2) →
      (∀ t, d.mute_state_contains t = (r.mute_states t).is_active) →
      (∀ t, d.mute_targets_empty t = (r.mute_states t).is_mute_to_all) →
      (update_from_device r d).2 = [ChannelChangedProperty.Volumes m]) ∧
    (∀ (r : ChannelRenderer) (d : SourceDevice) (t : MuteTarget),
      d.mute_state_contains t ≠ (r.mute_states t).is_active →
      d.mute_targets_empty t ≠ (r.mute_states t).is_mute_to_all →
      ((update_from_device r d).2).count (ChannelChangedProperty.MuteState t) = 1) := by
  refine ⟨?_, ?_, ?_⟩
  · intro r d h1 h2 h3 h4 h5
    rw [update_from_device_unchanged r d h1 h2 h3 h4 h5]
  · intro r d m h1 h2 h3 h4 h5 h6
    rw [update_from_device_volume_only r d m h1 h2 h3 h4 h5 h6]
  · intro r d t h1 _h2
    exact update_from_device_mute_once r d t h1

/-- C4 witness: the three diff behaviours at concrete snapshots. -/
theorem update_from_minimal_diff_witness :
    (update_from_device scenario_renderer demo_device).2 = [] ∧
    (update_from_device scenario_renderer demo_device_vol).2 =
      [ChannelChangedProperty.Volumes Mix.B] ∧
    ((update_from_device scenario_renderer demo_device_mute).2).count
      (ChannelChangedProperty.MuteState MuteTarget.TargetA) = 1 :=
  ⟨update_from_minimal_diff.1 scenario_renderer demo_device rfl rfl
      (by decide) (by decide) (by decide),
    update_from_minimal_diff.2.1 scenario_renderer demo_device_vol Mix.B rfl rfl
      (by decide) (by decide) (by decide) (by decide),
    update_from_minimal_diff.2.2 scenario_renderer demo_device_mute MuteTarget.TargetA
      (by decide) (by decide)⟩

/-- C10: a patch changing only a visible source's volume for a mix other
than the active one records the new volume in the renderer but pushes no
image: the change list is exactly `[Volumes mix]` and the per-field
dispatch skips `Volumes(mix)` whenever `mix` differs from the active
mix. -/
theorem inactive_mix_volume_not_pushed :
    ∀ (device_type : DeviceType) (active_mix : Mix) (r : ChannelRenderer)
      (d : SourceDevice) (m : Mix),
      d.name = r.title → snapshot_colour d = r.colour →
      d.volume m ≠ r.volumes m →
      (∀ m2, m2 ≠ m → d.volume m2 = r.volumes m2) →
      (∀ t, d.mute_state_contains t = (r.mute_states t).is_active) →
      (∀ t, d.mute_targets_empty t = (r.mute_states t).is_mute_to_all) →
      m ≠ active_mix →
      images_pushed device_type active_mix (update_from_device r d).2 = [] ∧
      (update_from_device r d).1.volumes m = d.volume m := by
  intro device_type active_mix r d m h1 h2 h3 h4 h5 h6 hmix
  rw [update_from_device_volume_only r d m h1 h2 h3 h4 h5 h6]
  constructor
  · simp [images_pushed, should_push_image, hmix]
  · simp

/-- C10 witness: with active mix A, a change to mix B's volume pushes
nothing and is recorded in the renderer. -/
theorem inactive_mix_volume_not_pushed_witness :
    images_pushed DeviceType.BeacnMixCreate Mix.A
      (update_from_device scenario_renderer demo_device_vol).2 = [] ∧
    (update_from_device scenario_renderer demo_device_vol).1.volumes Mix.B =
      demo_device_vol.volume Mix.B :=
  inactive_mix_volume_not_pushed DeviceType.BeacnMixCreate Mix.A scenario_renderer
    demo_device_vol Mix.B rfl rfl (by decide) (by decide) (by decide) (by decide) (by decide)

/-- C5: a dial-rotation event whose dial index is bound to a visible
source (with a renderer) emits a set-source-volume command for that
source and the active mix whose value is
`clamp(current_volume + signed_delta, 0, 100)`; the command index is the
only handler field that changes. -/
theorem dial_sets_clamped_volume :
    ∀ (st : HandlerState) (dial : Dials) (change : Int) (dev : Nat) (r : ChannelRenderer),
      st.devices_shown[dial_index dial]? = some dev →
      st.renderers dev = some r →
      ∃ v : Nat, handle_dial st dial change =
          Except.ok ({ st with command_index := st.command_index + 1 },
            some (APICommand.SetSourceVolume dev st.active_mix v)) ∧
        v ≤ 100 ∧
        (v : Int) = max 0 (min 100 ((r.volumes st.active_mix : Int) + change)) := by
  intro st dial change dev r hdev hr
  refine ⟨(min (max ((r.volumes st.active_mix : Int) + change) 0) 100).toNat, ?_, ?_, ?_⟩
  · simp [handle_dial, hdev, hr]
  · omega
  · omega

/-- C5 witness: the spec scenario — slot 2, current volume 98, delta +5 —
emits value 100, not 103. -/
theorem dial_sets_clamped_volume_witness :
    ∃ v : Nat, handle_dial scenario_state Dials.Dial3 5 =
        Except.ok ({ scenario_state with command_index := scenario_state.command_index + 1 },
          some (APICommand.SetSourceVolume 42 scenario_state.active_mix v)) ∧
      v ≤ 100 ∧
      (v : Int) = max 0 (min 100 ((scenario_renderer.volumes scenario_state.active_mix : Int) + 5)) :=
  dial_sets_clamped_volume scenario_state Dials.Dial3 5 42 scenario_renderer rfl rfl

/-- C6: handling a dial rotation or a mute-toggle button release leaves
every piece of local mirror state unchanged — the renderer map, the
visible device list, the active page, the active mix and the device type
— and only emits at most one remote command: a set-volume for the dial,
or an add/remove-mute-target chosen by the current `is_active` flag for
the mute toggle; an unbound slot emits nothing. -/
theorem interaction_write_through_remote :
    (∀ (st : HandlerState) (dial : Dials) (change : Int)
        (st2 : HandlerState) (cmd : Option APICommand),
      handle_dial st dial change = Except.ok (st2, cmd) →
      (st2.renderers = st.renderers ∧ st2.devices_shown = st.devices_shown ∧
        st2.active_page = st.active_page ∧ st2.active_mix = st.active_mix ∧
        st2.device_type = st.device_type) ∧
      (st.devices_shown[dial_index dial]? = none → cmd = none) ∧
      (∀ c, cmd = some c → ∃ dev r v, st.devices_shown[dial_index dial]? = some dev ∧
        st.renderers dev = some r ∧ c = APICommand.SetSourceVolume dev st.active_mix v)) ∧
    (∀ (st : HandlerState) (button : Buttons) (index : Nat) (target : MuteTarget)
        (st2 : HandlerState) (cmd : Option APICommand),
      mute_button_binding button = some (index, target) →
      handle_mute_button st index target = Except.ok (st2, cmd) →
      (st2.renderers = st.renderers ∧ st2.devices_shown = st.devices_shown ∧
        st2.active_page = st.active_page ∧ st2.active_mix = st.active_mix ∧
        st2.device_type = st.device_type) ∧
      (st.devices_shown[index]? = none → cmd = none) ∧
      (∀ c, cmd = some c → ∃ dev r, st.devices_shown[index]? = some dev ∧
        st.renderers dev = some r ∧
        c = (if (r.mute_states target).is_active then APICommand.DelSourceMuteTarget dev target
             else APICommand.AddSourceMuteTarget dev target))) := by
  constructor
  · intro st dial change st2 cmd h
    cases hdev : st.devices_shown[dial_index dial]? with
    | none =>
      simp [handle_dial, hdev] at h
      obtain ⟨h1, h2⟩ := h
      subst h1
      refine ⟨by simp, fun _ => h2.symm, ?_⟩
      intro c hc
      rw [← h2] at hc
      cases hc
    | some dev =>
      cases hr : st.renderers dev with
      | none => simp [handle_dial, hdev, hr] at h
      | some r =>
        simp [handle_dial, hdev, hr] at h
        obtain ⟨h1, h2⟩ := h
        subst h1
        refine ⟨by simp, ?_, ?_⟩
        · intro hcon
          simp at hcon
        · intro c hc
          rw [← h2] at hc
          cases hc
          exact ⟨dev, r, _, rfl, hr, rfl⟩
  · intro st button index target st2 cmd _hbind h
    cases hdev : st.devices_shown[index]? with
    | none =>
      simp [handle_mute_button, hdev] at h
      obtain ⟨h1, h2⟩ := h
      subst h1
      refine ⟨by simp, fun _ => h2.symm, ?_⟩
      intro c hc
      rw [← h2] at hc
      cases hc
    | some dev =>
      cases hr : st.renderers dev with
      | none => simp [handle_mute_button, hdev, hr] at h
      | some r =>
        simp [handle_mute_button, hdev, hr] at h
        obtain ⟨h1, h2⟩ := h
        subst h1
        refine ⟨by simp, ?_, ?_⟩
        · intro hcon
          simp at hcon
        · intro c hc
          rw [← h2] at hc
          cases hc
          exact ⟨dev, r, rfl, hr, rfl⟩

/-- C6 witness: the frame condition applied to a bound dial rotation and
to an unbound mute-toggle press on the scenario state. -/
theorem interaction_write_through_remote_witness :
    ((scenario_state.renderers = scenario_state.renderers ∧
        scenario_state.devices_shown = scenario_state.devices_shown ∧
        scenario_state.active_page = scenario_state.active_page ∧
        scenario_state.active_mix = scenario_state.active_mix ∧
        scenario_state.device_type = scenario_state.device_type) ∧
      (scenario_state.devices_shown[dial_index Dials.Dial3]? = none →
        some (APICommand.SetSourceVolume 42 Mix.A 100) = none) ∧
      (∀ c, some (APICommand.SetSourceVolume 42 Mix.A 100) = some c →
        ∃ dev r v, scenario_state.devices_shown[dial_index Dials.Dial3]? = some dev ∧
          scenario_state.renderers dev = some r ∧
          c = APICommand.SetSourceVolume dev scenario_state.active_mix v)) := by
  have h := interaction_write_through_remote.1 scenario_state Dials.Dial3 5
    { scenario_state with command_index := scenario_state.command_index + 1 }
    (some (APICommand.SetSourceVolume 42 Mix.A 100)) (by rfl)
  exact h

/-- C7: one retry iteration after a refused connection sleeps 5 seconds
and logs no warning, any other failure logs one warning and sleeps the
same 5 seconds (the sleep concluding the iteration either way); across a
run of consecutive failures with no intervening successful connection the
failure status screen is drawn exactly once, on the first failure; and
the spec's three-refusals scenario produces exactly one screen draw,
three sleeps and no warnings. -/
theorem connection_retry_behaviour :
    (∀ (st : ConnState) (o : ConnOutcome), o.refused = true →
      (failure_iteration st o).2.count HandlerEvent.warned = 0 ∧
      (failure_iteration st o).2.count HandlerEvent.slept5 = 1 ∧
      (failure_iteration st o).2.getLast? = some HandlerEvent.slept5) ∧
    (∀ (st : ConnState) (o : ConnOutcome), o.refused = false →
      (failure_iteration st o).2.count HandlerEvent.warned = 1 ∧
      (failure_iteration st o).2.count HandlerEvent.slept5 = 1 ∧
      (failure_iteration st o).2.getLast? = some HandlerEvent.slept5) ∧
    (∀ (st : ConnState) (os : List ConnOutcome), st.displaying_error = false →
      (∀ o ∈ os, o.connected = false) → os ≠ [] →
      ((run_failures st os).2.countP (fun e => is_status_draw e)) = 1) ∧
    (run_failures ⟨false, false⟩ [⟨false, true⟩, ⟨false, true⟩, ⟨false, true⟩] =
      (⟨false, true⟩,
        [HandlerEvent.drew_failed_screen, HandlerEvent.disabled_buttons, HandlerEvent.slept5,
          HandlerEvent.slept5, HandlerEvent.slept5])) := by
  have hstep0 : ∀ (st : ConnState) (o : ConnOutcome), st.displaying_error = true →
      o.connected = false →
      (failure_iteration st o).2.countP (fun e => is_status_draw e) = 0 ∧
      (failure_iteration st o).1.displaying_error = true := by decide
  have hfirst : ∀ (st : ConnState) (o : ConnOutcome), st.displaying_error = false →
      (failure_iteration st o).2.countP (fun e => is_status_draw e) = 1 ∧
      (failure_iteration st o).1.displaying_error = true := by decide
  have hnodraw : ∀ (os : List ConnOutcome) (st : ConnState), st.displaying_error = true →
      (∀ o ∈ os, o.connected = false) →
      ((run_failures st os).2.countP (fun e => is_status_draw e)) = 0 := by
    intro os
    induction os with
    | nil =>
      intro st _ _
      simp [run_failures]
    | cons o os ih =>
      intro st hde hc
      have h1 := hstep0 st o hde (hc o (by simp))
      simp only [run_failures]
      rw [List.countP_append, h1.1,
        ih _ h1.2 (fun o2 ho2 => hc o2 (List.mem_cons_of_mem _ ho2))]
  refine ⟨by decide, by decide, ?_, by decide⟩
  intro st os hde hc hne
  cases os with
  | nil => exact absurd rfl hne
  | cons o os =>
    have h1 := hfirst st o hde
    simp only [run_failures]
    rw [List.countP_append, h1.1,
      hnodraw os _ h1.2 (fun o2 ho2 => hc o2 (List.mem_cons_of_mem _ ho2))]

/-- C7 witness: the per-iteration behaviours and the draw-once property
applied at concrete states and outcome runs. -/
theorem connection_retry_behaviour_witness :
    ((failure_iteration ⟨false, false⟩ ⟨false, true⟩).2.count HandlerEvent.warned = 0 ∧
      (failure_iteration ⟨false, false⟩ ⟨false, true⟩).2.count HandlerEvent.slept5 = 1 ∧
      (failure_iteration ⟨false, false⟩ ⟨false, true⟩).2.getLast? = some HandlerEvent.slept5) ∧
    ((run_failures ⟨true, false⟩ [⟨false, false⟩, ⟨false, true⟩]).2.countP
      (fun e => is_status_draw e)) = 1 :=
  ⟨connection_retry_behaviour.1 ⟨false, false⟩ ⟨false, true⟩ rfl,
    connection_retry_behaviour.2.2.1 ⟨true, false⟩ [⟨false, false⟩, ⟨false, true⟩] rfl
      (by decide) (by decide)⟩

end BeacnPipeweaver
